import Mathlib

/-!
Verification of the query-time core of the osrm-backend repository:
road-classification guidance heuristics
(`extractor/guidance/classification_data.hpp`), the plugin dispatcher
(`Library/OSRM.cpp`) and the reusable search-storage
(`DataStructures/SearchEngineData.h`).

Machine integers are modelled as `Nat`; the C++ bitfields of
`RoadClassification` (three one-bit flags, a five-bit priority class and an
eight-bit lane count) are modelled as `Bool` flags and `Nat` fields, with the
constructors truncating modulo the field width exactly as a bitfield
assignment does.
-/

namespace Osrm

/-! ## RoadPriorityClass (classification_data.hpp, lines 22-53) -/

namespace RoadPriorityClass

def MOTORWAY : Nat := 0
def MOTORWAY_LINK : Nat := 1
def TRUNK : Nat := 2
def TRUNK_LINK : Nat := 3
def PRIMARY : Nat := 4
def PRIMARY_LINK : Nat := 5
def SECONDARY : Nat := 6
def SECONDARY_LINK : Nat := 7
def TERTIARY : Nat := 8
def TERTIARY_LINK : Nat := 9
def MAIN_RESIDENTIAL : Nat := 10
def SIDE_RESIDENTIAL : Nat := 11
def ALLEY : Nat := 12
def PARKING : Nat := 13
def LINK_ROAD : Nat := 14
def BIKE_PATH : Nat := 16
def FOOT_PATH : Nat := 18
def CONNECTIVITY : Nat := 31

end RoadPriorityClass

/-! ## RoadClassification (classification_data.hpp, lines 55-129) -/

structure RoadClassification where
  motorway_class : Bool
  link_class : Bool
  may_be_ignored : Bool
  road_priority_class : Nat
  number_of_lanes : Nat
  deriving Repr, DecidableEq

namespace RoadClassification

/-- The default constructor (lines 74-78): all flags clear, priority
`CONNECTIVITY`, zero lanes. -/
def mkDefault : RoadClassification :=
  ⟨false, false, false, RoadPriorityClass.CONNECTIVITY, 0⟩

/-- The five-argument constructor (lines 80-88).  Assigning to the 5-bit and
8-bit bitfields truncates modulo the field width. -/
def make (m l i : Bool) (priority lanes : Nat) : RoadClassification :=
  ⟨m, l, i, priority % 32, lanes % 256⟩

def IsMotorwayClass (r : RoadClassification) : Bool := r.motorway_class

def IsRampClass (r : RoadClassification) : Bool :=
  r.motorway_class && r.link_class

def IsLinkClass (r : RoadClassification) : Bool := r.link_class

def IsLowPriorityRoadClass (r : RoadClassification) : Bool := r.may_be_ignored

def GetNumberOfLanes (r : RoadClassification) : Nat := r.number_of_lanes

def GetPriority (r : RoadClassification) : Nat := r.road_priority_class

def GetClass (r : RoadClassification) : Nat := r.road_priority_class

/-- `operator==` (lines 109-114): compares the three flags and the priority
class, ignoring `number_of_lanes`. -/
def eq (a b : RoadClassification) : Bool :=
  a.motorway_class == b.motorway_class && a.link_class == b.link_class &&
    a.may_be_ignored == b.may_be_ignored &&
    a.road_priority_class == b.road_priority_class

end RoadClassification

/-! ## Guidance heuristics (classification_data.hpp, lines 131-236) -/

/-- `canBeSeenAsFork` (lines 131-135). -/
def canBeSeenAsFork (first second : RoadClassification) : Bool :=
  decide ((first.GetPriority : Int) - (second.GetPriority : Int) ≤ 1 ∧
          (second.GetPriority : Int) - (first.GetPriority : Int) ≤ 1)

/-- The divider list of `strictlyLess` (lines 144-150): inclusive ends of the
priority bands. -/
def dividers : List Nat :=
  [RoadPriorityClass.TRUNK_LINK,
   RoadPriorityClass.SECONDARY_LINK,
   RoadPriorityClass.SIDE_RESIDENTIAL,
   RoadPriorityClass.ALLEY,
   RoadPriorityClass.PARKING,
   RoadPriorityClass.CONNECTIVITY]

/-- The index of `std::upper_bound(dividers, dividers + 6, p)` in the sorted
divider array: the index of the first divider strictly greater than `p`
(6 when there is none). -/
def upperBoundIdx (p : Nat) : Nat :=
  dividers.findIdx (fun d => p < d)

/-- `strictlyLess` (lines 140-154): compares the `upper_bound` iterators of
the two priorities with `<`. -/
def strictlyLess (lhs rhs : RoadClassification) : Bool :=
  upperBoundIdx lhs.GetPriority < upperBoundIdx rhs.GetPriority

/-- `isLinkTo` (lines 157-183). -/
def isLinkTo (link road : RoadClassification) : Bool :=
  if !link.IsLinkClass || road.IsLinkClass then false
  else if link.GetPriority == RoadPriorityClass.MOTORWAY_LINK then
    road.GetPriority == RoadPriorityClass.MOTORWAY
  else if link.GetPriority == RoadPriorityClass.TRUNK_LINK then
    road.GetPriority == RoadPriorityClass.TRUNK
  else if link.GetPriority == RoadPriorityClass.PRIMARY_LINK then
    road.GetPriority == RoadPriorityClass.PRIMARY
  else if link.GetPriority == RoadPriorityClass.SECONDARY_LINK then
    road.GetPriority == RoadPriorityClass.SECONDARY
  else if link.GetPriority == RoadPriorityClass.TERTIARY_LINK then
    road.GetPriority == RoadPriorityClass.TERTIARY
  else false

/-- Modelled from the spec: `PRIORITY_DISTINCTION_FACTOR` is declared in
`extractor/guidance/constants.hpp`, a file not among the provided sources;
the spec names the constant but states no numeric value.  The two
`obviousByRoadClass` functions therefore take the factor as an explicit
`factor` parameter, and every theorem about them quantifies over it. -/
def FactorParam : Type := Nat

/-- `obviousByRoadClass` (lines 185-215). -/
def obviousByRoadClass (factor : Nat)
    (in_classification obvious_candidate compare_candidate :
      RoadClassification) : Bool :=
  if in_classification.IsMotorwayClass && obvious_candidate.IsMotorwayClass &&
      compare_candidate.IsRampClass then
    true
  else
    let passing_ramp :=
      compare_candidate.IsRampClass && !in_classification.IsMotorwayClass &&
        !in_classification.IsRampClass
    if !in_classification.IsMotorwayClass &&
        !obvious_candidate.IsMotorwayClass &&
        !in_classification.IsLinkClass && !obvious_candidate.IsLinkClass &&
        !compare_candidate.IsRampClass && compare_candidate.IsLinkClass then
      true
    else
      let has_high_priority :=
        decide (factor * obvious_candidate.GetPriority <
                compare_candidate.GetPriority) &&
          !compare_candidate.IsRampClass
      let continues_on_same_class :=
        RoadClassification.eq in_classification obvious_candidate
      (has_high_priority && continues_on_same_class && !passing_ramp) ||
        (!obvious_candidate.IsLowPriorityRoadClass &&
          !in_classification.IsLowPriorityRoadClass &&
          compare_candidate.IsLowPriorityRoadClass)

/-- `obviousByRoadClassOld` (lines 217-236). -/
def obviousByRoadClassOld (factor : Nat)
    (in_classification obvious_candidate compare_candidate :
      RoadClassification) : Bool :=
  let first_priority :=
    if obvious_candidate.IsLinkClass then RoadPriorityClass.LINK_ROAD
    else obvious_candidate.GetPriority
  let second_priority :=
    if compare_candidate.IsLinkClass then RoadPriorityClass.LINK_ROAD
    else compare_candidate.GetPriority
  let has_high_priority := decide (factor * first_priority < second_priority)
  let continues_on_same_class :=
    RoadClassification.eq in_classification obvious_candidate
  (has_high_priority && continues_on_same_class) ||
    (!obvious_candidate.IsLowPriorityRoadClass &&
      !in_classification.IsLowPriorityRoadClass &&
      compare_candidate.IsLowPriorityRoadClass)

/-! ## Dispatcher (Library/OSRM.cpp) -/

/-- Modelled from the spec: the HTTP reply status codes (`http::Reply` lives
in the HTTP transport layer, which is not among the provided sources).  The
spec names `ok`, `bad-request` and "other stock statuses"; only the two named
ones are needed here. -/
inductive ReplyStatus where
  | ok
  | badRequest
  deriving Repr, DecidableEq

/-- Modelled from the spec: a reply carries a status and a body. -/
structure Reply where
  status : ReplyStatus
  content : String
  deriving Repr, DecidableEq

/-- Modelled from the spec: `http::Reply::stockReply` (HTTP layer, not among
the provided sources) produces a fixed stock response determined only by the
status passed to it. -/
def stockReply (s : ReplyStatus) : Reply :=
  ⟨s, "stock reply"⟩

/-- Modelled from the spec: a request carries at minimum a `service` name
selecting the plugin; the remaining parameters are opaque to the
dispatcher. -/
structure RouteParameters where
  service : String

/-- Modelled from the spec: a plugin exposes a stable service-name descriptor
and a request handler taking the parsed parameters and a mutable reply.  The
`id` field identifies the instance so that destruction can be tracked. -/
structure BasePlugin where
  descriptor : String
  id : Nat
  handler : RouteParameters → Reply → Reply

def BasePlugin.GetDescriptor (p : BasePlugin) : String := p.descriptor

/-- The `PluginMap` of `OSRM.h`: a map from descriptor strings to owned
plugins, modelled as an association list with at most one entry per key. -/
abbrev PluginMap : Type := List (String × BasePlugin)

/-- `plugin_map.find(key)`: the entry stored under `key`, if any. -/
def mapFind (m : PluginMap) (key : String) : Option BasePlugin :=
  match m with
  | [] => none
  | (k, v) :: rest => if k == key then some v else mapFind rest key

/-- `plugin_map.emplace(key, value)`: `std::map::emplace` inserts only when
no entry with `key` exists; otherwise it leaves the map unchanged. -/
def mapEmplace (m : PluginMap) (key : String) (value : BasePlugin) :
    PluginMap :=
  if (mapFind m key).isSome then m else m ++ [(key, value)]

/-- The dispatcher state: the plugin registry, together with the ids of the
plugin instances that have been `delete`d so far (so that destruction is
observable in the model). -/
structure OSRMState where
  plugin_map : PluginMap
  destroyed : List Nat

/-- `OSRM::RegisterPlugin` (OSRM.cpp, lines 74-80): look the descriptor up;
if an entry exists, `delete` its plugin; then `emplace` the new plugin. -/
def RegisterPlugin (st : OSRMState) (plugin : BasePlugin) : OSRMState :=
  match mapFind st.plugin_map plugin.GetDescriptor with
  | some old =>
      { plugin_map := mapEmplace st.plugin_map plugin.GetDescriptor plugin,
        destroyed := old.id :: st.destroyed }
  | none =>
      { plugin_map := mapEmplace st.plugin_map plugin.GetDescriptor plugin,
        destroyed := st.destroyed }

/-- `OSRM::RunQuery` (OSRM.cpp, lines 82-93): look the service up; if found,
set `reply.status` to `ok` and hand the reply to the plugin's handler; else
overwrite the reply with the stock bad-request response.  The second
component of the result records the ids of the plugins whose handler was
invoked, in order. -/
def RunQuery (st : OSRMState) (route_parameters : RouteParameters)
    (reply : Reply) : Reply × List Nat :=
  match mapFind st.plugin_map route_parameters.service with
  | some p =>
      (p.handler route_parameters { reply with status := ReplyStatus.ok },
       [p.id])
  | none => (stockReply ReplyStatus.badRequest, [])

/-! ## SearchEngineData (DataStructures/SearchEngineData.h) -/

/-- Modelled from the spec: the `QueryHeap` (a `BinaryHeap` over node
identities, defined in `BinaryHeap.h`, which is not among the provided
sources).  Only the capacity it was allocated for and its pending and visited
entries matter to the storage-reuse contract. -/
structure QueryHeap where
  capacity : Nat
  pending : List Nat
  visited : List Nat
  deriving Repr, DecidableEq

/-- Modelled from the spec: allocating a heap sized for
`number_of_nodes` node identities. -/
def QueryHeap.allocate (number_of_nodes : Nat) : QueryHeap :=
  ⟨number_of_nodes, [], []⟩

/-- Modelled from the spec: clearing all entries (pending + visited) without
deallocating — the backing capacity is retained. -/
def QueryHeap.clear (h : QueryHeap) : QueryHeap :=
  { h with pending := [], visited := [] }

/-- Modelled from the spec: the body of
`InitializeOrClear<Nth>ThreadLocalStorage` for one heap slot (the `.cpp`
implementation is absent; `SearchEngineData.h` declares the functions).  If
the slot's heap does not yet exist, allocate one sized for `number_of_nodes`;
if it exists and `number_of_nodes` has grown beyond its capacity, reallocate
to the new size; otherwise clear all entries without deallocating. -/
def initializeOrClearSlot (number_of_nodes : Nat) :
    Option QueryHeap → QueryHeap
  | none => QueryHeap.allocate number_of_nodes
  | some h =>
      if h.capacity < number_of_nodes then QueryHeap.allocate number_of_nodes
      else h.clear

/-- The six thread-local heap slots of `SearchEngineData`
(SearchEngineData.h, lines 56-61), for one execution context. -/
structure SearchEngineData where
  forwardHeap : Option QueryHeap
  backwardHeap : Option QueryHeap
  forwardHeap2 : Option QueryHeap
  backwardHeap2 : Option QueryHeap
  forwardHeap3 : Option QueryHeap
  backwardHeap3 : Option QueryHeap

/-- Modelled from the spec:
`SearchEngineData::InitializeOrClearFirstThreadLocalStorage` operates on the
first forward/backward heap pair. -/
def SearchEngineData.InitializeOrClearFirstThreadLocalStorage
    (st : SearchEngineData) (number_of_nodes : Nat) : SearchEngineData :=
  { st with
    forwardHeap := some (initializeOrClearSlot number_of_nodes st.forwardHeap),
    backwardHeap :=
      some (initializeOrClearSlot number_of_nodes st.backwardHeap) }

/-- Modelled from the spec:
`SearchEngineData::InitializeOrClearSecondThreadLocalStorage` operates on the
second forward/backward heap pair. -/
def SearchEngineData.InitializeOrClearSecondThreadLocalStorage
    (st : SearchEngineData) (number_of_nodes : Nat) : SearchEngineData :=
  { st with
    forwardHeap2 :=
      some (initializeOrClearSlot number_of_nodes st.forwardHeap2),
    backwardHeap2 :=
      some (initializeOrClearSlot number_of_nodes st.backwardHeap2) }

/-- Modelled from the spec:
`SearchEngineData::InitializeOrClearThirdThreadLocalStorage` operates on the
third forward/backward heap pair. -/
def SearchEngineData.InitializeOrClearThirdThreadLocalStorage
    (st : SearchEngineData) (number_of_nodes : Nat) : SearchEngineData :=
  { st with
    forwardHeap3 :=
      some (initializeOrClearSlot number_of_nodes st.forwardHeap3),
    backwardHeap3 :=
      some (initializeOrClearSlot number_of_nodes st.backwardHeap3) }

/-! ## Variant used for the redundancy analysis of `obviousByRoadClass` -/

/-- `obviousByRoadClass` with the `!passing_ramp` conjunct removed from the
final return expression (line 211); everything else is identical to
`obviousByRoadClass`. -/
def obviousByRoadClassNoPassingRamp (factor : Nat)
    (in_classification obvious_candidate compare_candidate :
      RoadClassification) : Bool :=
  if in_classification.IsMotorwayClass && obvious_candidate.IsMotorwayClass &&
      compare_candidate.IsRampClass then
    true
  else
    if !in_classification.IsMotorwayClass &&
        !obvious_candidate.IsMotorwayClass &&
        !in_classification.IsLinkClass && !obvious_candidate.IsLinkClass &&
        !compare_candidate.IsRampClass && compare_candidate.IsLinkClass then
      true
    else
      let has_high_priority :=
        decide (factor * obvious_candidate.GetPriority <
                compare_candidate.GetPriority) &&
          !compare_candidate.IsRampClass
      let continues_on_same_class :=
        RoadClassification.eq in_classification obvious_candidate
      (has_high_priority && continues_on_same_class) ||
        (!obvious_candidate.IsLowPriorityRoadClass &&
          !in_classification.IsLowPriorityRoadClass &&
          compare_candidate.IsLowPriorityRoadClass)

/-! ## Sample values used by witnesses and counterexamples -/

/-- A plain road of the given priority: no flags set, zero lanes. -/
def plainRoad (priority : Nat) : RoadClassification :=
  ⟨false, false, false, priority, 0⟩

/-- A motorway: motorway flag set, priority `MOTORWAY`. -/
def motorwayRoad : RoadClassification :=
  ⟨true, false, false, RoadPriorityClass.MOTORWAY, 0⟩

/-- A motorway ramp: motorway and link flags set, priority
`MOTORWAY_LINK`. -/
def motorwayRamp : RoadClassification :=
  ⟨true, true, false, RoadPriorityClass.MOTORWAY_LINK, 0⟩

/-- A handler that leaves the reply it is given untouched. -/
def idHandler : RouteParameters → Reply → Reply := fun _ r => r

/-- First sample plugin registered under the descriptor `viaroute`. -/
def pluginA : BasePlugin := ⟨"viaroute", 1, idHandler⟩

/-- Second sample plugin registered under the same descriptor `viaroute`. -/
def pluginB : BasePlugin := ⟨"viaroute", 2, idHandler⟩

/-- The dispatcher state after registering `pluginA` and then `pluginB`,
starting from the empty registry. -/
def dupState : OSRMState :=
  RegisterPlugin (RegisterPlugin ⟨[], []⟩ pluginA) pluginB

/-- A plugin whose handler returns the reply unchanged, registered under the
descriptor `hello`. -/
def identityPlugin : BasePlugin := ⟨"hello", 7, idHandler⟩

/-- A dispatcher state holding exactly the `identityPlugin`. -/
def oneState : OSRMState := ⟨[(identityPlugin.descriptor, identityPlugin)], []⟩

/-- The reuse contract of one heap slot: after
`InitializeOrClear<Nth>ThreadLocalStorage(number_of_nodes)` the slot holds a
heap with no pending and no visited entries whose capacity is
`number_of_nodes` when the slot was empty, and the maximum of the old
capacity and `number_of_nodes` otherwise (so an existing sufficiently large
heap keeps its backing capacity, and an undersized one is reallocated to the
new size, never left undersized). -/
def slotReset (number_of_nodes : Nat) (old upd : Option QueryHeap) : Prop :=
  upd.map QueryHeap.pending = some [] ∧
  upd.map QueryHeap.visited = some [] ∧
  upd.map QueryHeap.capacity =
    some (Option.elim old number_of_nodes
      (fun h => max h.capacity number_of_nodes))

/-! ## Theorems -/

/-- C1: registering `pluginA` and then `pluginB` under the same descriptor
`viaroute` leaves exactly one registry entry keyed by that descriptor, but —
because `std::map::emplace` does not overwrite an existing key — the entry's
handler is still the first-registered instance (id 1), which has already been
`delete`d; the second instance is never inserted.  This contradicts the
claim that the surviving handler is the second-registered instance. -/
theorem register_duplicate_keeps_first_instance :
    dupState.plugin_map.map (fun e => (e.1, e.2.id)) = [("viaroute", 1)] ∧
    dupState.destroyed = [1] :=
  ⟨rfl, rfl⟩

/-- C2: `strictlyLess` compares the `upper_bound` iterators with `<`, which
is the inverse of the claimed (and of the source comment's) direction: a
main-residential road (band index 2) is not reported strictly less than a
motorway (band index 0), while the motorway is reported strictly less than
the residential road. -/
theorem strictly_less_direction_inverted :
    upperBoundIdx (plainRoad RoadPriorityClass.MAIN_RESIDENTIAL).GetPriority
        = 2 ∧
    upperBoundIdx (plainRoad RoadPriorityClass.MOTORWAY).GetPriority = 0 ∧
    strictlyLess (plainRoad RoadPriorityClass.MAIN_RESIDENTIAL)
        (plainRoad RoadPriorityClass.MOTORWAY) = false ∧
    strictlyLess (plainRoad RoadPriorityClass.MOTORWAY)
        (plainRoad RoadPriorityClass.MAIN_RESIDENTIAL) = true := by
  decide

/-- C3 (counterexample): the result of `obviousByRoadClassOld` does depend on
the `in` argument: with `obvious_candidate` a motorway-priority road and
`compare_candidate` a tertiary road, changing `in` from a primary road to a
copy of `obvious_candidate` changes the result from `false` to `true`. -/
theorem obvious_old_depends_on_in :
    obviousByRoadClassOld 2 (plainRoad RoadPriorityClass.PRIMARY)
        (plainRoad RoadPriorityClass.MOTORWAY)
        (plainRoad RoadPriorityClass.TERTIARY) ≠
      obviousByRoadClassOld 2 (plainRoad RoadPriorityClass.MOTORWAY)
        (plainRoad RoadPriorityClass.MOTORWAY)
        (plainRoad RoadPriorityClass.TERTIARY) := by
  decide

/-- C3 (amended): `obviousByRoadClassOld` depends on its `in` argument only
through the two tests `in == obvious_candidate` and
`in.IsLowPriorityRoadClass()`: two `in` values agreeing on both yield the
same result for every factor and every pair of candidates. -/
theorem obvious_old_in_dependence_only_via_eq_and_ignorable
    (factor : Nat)
    (in1 in2 obvious_candidate compare_candidate : RoadClassification)
    (h1 : RoadClassification.eq in1 obvious_candidate =
          RoadClassification.eq in2 obvious_candidate)
    (h2 : in1.IsLowPriorityRoadClass = in2.IsLowPriorityRoadClass) :
    obviousByRoadClassOld factor in1 obvious_candidate compare_candidate =
      obviousByRoadClassOld factor in2 obvious_candidate compare_candidate
    := by
  simp only [obviousByRoadClassOld]
  rw [h1, h2]

/-- Witness for the amended C3 theorem: two `in` values differing in lane
count (which `operator==` ignores) satisfy both hypotheses and yield the same
result. -/
theorem obvious_old_in_dependence_witness :
    RoadClassification.eq (plainRoad RoadPriorityClass.PRIMARY)
        (plainRoad RoadPriorityClass.MOTORWAY) =
      RoadClassification.eq ⟨false, false, false, 4, 2⟩
        (plainRoad RoadPriorityClass.MOTORWAY) ∧
    (plainRoad RoadPriorityClass.PRIMARY).IsLowPriorityRoadClass =
      RoadClassification.IsLowPriorityRoadClass ⟨false, false, false, 4, 2⟩ ∧
    obviousByRoadClassOld 2 (plainRoad RoadPriorityClass.PRIMARY)
        (plainRoad RoadPriorityClass.MOTORWAY)
        (plainRoad RoadPriorityClass.TERTIARY) =
      obviousByRoadClassOld 2 ⟨false, false, false, 4, 2⟩
        (plainRoad RoadPriorityClass.MOTORWAY)
        (plainRoad RoadPriorityClass.TERTIARY) :=
  ⟨by decide, by decide,
    obvious_old_in_dependence_only_via_eq_and_ignorable 2
      (plainRoad RoadPriorityClass.PRIMARY) ⟨false, false, false, 4, 2⟩
      (plainRoad RoadPriorityClass.MOTORWAY)
      (plainRoad RoadPriorityClass.TERTIARY) (by decide) (by decide)⟩

/-- C4 (counterexample): the dispatcher does write into the reply before
delegating: with a registered plugin whose handler returns the reply
unchanged and an incoming reply whose status is `badRequest`, the reply after
`RunQuery` has status `ok` (written by the dispatcher at line 88), so it is
not the handler's output on the reply as given. -/
theorem run_query_presets_ok_status :
    (RunQuery oneState ⟨("hello")⟩ ⟨ReplyStatus.badRequest, ("x")⟩).1 ≠
      identityPlugin.handler ⟨("hello")⟩ ⟨ReplyStatus.badRequest, ("x")⟩ := by
  decide

/-- C4 (amended): for a matching service name, `RunQuery` first sets the
reply status to `ok`, then invokes the matching plugin's handler exactly
once, and performs no further write: the final reply is exactly the handler's
output on the `ok`-initialized reply (in particular a reply the plugin marked
`ok` is not altered afterwards). -/
theorem run_query_delegates_exactly_once
    (st : OSRMState) (route_parameters : RouteParameters) (reply : Reply)
    (p : BasePlugin)
    (h : mapFind st.plugin_map route_parameters.service = some p) :
    RunQuery st route_parameters reply =
      (p.handler route_parameters { reply with status := ReplyStatus.ok },
       [p.id]) := by
  simp [RunQuery, h]

/-- Witness for the amended C4 theorem: the identity plugin receives the
`ok`-initialized reply and its output is returned unaltered, with exactly one
recorded handler invocation. -/
theorem run_query_delegates_witness :
    mapFind oneState.plugin_map ("hello") = some identityPlugin ∧
    RunQuery oneState ⟨("hello")⟩ ⟨ReplyStatus.ok, ("body")⟩ =
      (⟨ReplyStatus.ok, ("body")⟩, [7]) :=
  ⟨rfl,
    run_query_delegates_exactly_once oneState ⟨("hello")⟩
      ⟨ReplyStatus.ok, ("body")⟩ identityPlugin rfl⟩

/-- C5: for a service name matching no registered plugin, `RunQuery`
overwrites the reply — whatever it held — with the fixed stock bad-request
response and invokes no handler. -/
theorem run_query_unknown_service_stock_reply
    (st : OSRMState) (route_parameters : RouteParameters) (reply : Reply)
    (h : mapFind st.plugin_map route_parameters.service = none) :
    RunQuery st route_parameters reply =
      (stockReply ReplyStatus.badRequest, []) := by
  simp [RunQuery, h]

/-- Witness for C5: an unknown service against the one-plugin registry
yields the stock bad-request reply and an empty invocation trace. -/
theorem run_query_unknown_service_witness :
    mapFind oneState.plugin_map ("nearest") = none ∧
    RunQuery oneState ⟨("nearest")⟩ ⟨ReplyStatus.ok, ("previous")⟩ =
      (stockReply ReplyStatus.badRequest, []) :=
  ⟨rfl,
    run_query_unknown_service_stock_reply oneState ⟨("nearest")⟩
      ⟨ReplyStatus.ok, ("previous")⟩ rfl⟩

set_option linter.unnecessarySeqFocus false in
/-- C6: `isLinkTo link road` is true exactly when `link` is link-class,
`road` is not, and the pair of priorities is one of the five valid
link/parent pairs. -/
theorem is_link_to_characterization (link road : RoadClassification) :
    isLinkTo link road = true ↔
      (link.IsLinkClass = true ∧ road.IsLinkClass = false ∧
        ((link.GetPriority = RoadPriorityClass.MOTORWAY_LINK ∧
          road.GetPriority = RoadPriorityClass.MOTORWAY) ∨
         (link.GetPriority = RoadPriorityClass.TRUNK_LINK ∧
          road.GetPriority = RoadPriorityClass.TRUNK) ∨
         (link.GetPriority = RoadPriorityClass.PRIMARY_LINK ∧
          road.GetPriority = RoadPriorityClass.PRIMARY) ∨
         (link.GetPriority = RoadPriorityClass.SECONDARY_LINK ∧
          road.GetPriority = RoadPriorityClass.SECONDARY) ∨
         (link.GetPriority = RoadPriorityClass.TERTIARY_LINK ∧
          road.GetPriority = RoadPriorityClass.TERTIARY))) := by
  unfold isLinkTo
  split_ifs with h1 h2 h3 h4 h5 h6 <;>
    simp_all [RoadPriorityClass.MOTORWAY, RoadPriorityClass.MOTORWAY_LINK,
      RoadPriorityClass.TRUNK, RoadPriorityClass.TRUNK_LINK,
      RoadPriorityClass.PRIMARY, RoadPriorityClass.PRIMARY_LINK,
      RoadPriorityClass.SECONDARY, RoadPriorityClass.SECONDARY_LINK,
      RoadPriorityClass.TERTIARY, RoadPriorityClass.TERTIARY_LINK] <;>
    first
      | omega
      | (intro hL hR
         rcases h1 with h | h <;> simp_all)

/-- Witness for C6: a motorway ramp is the fitting link for a motorway. -/
theorem is_link_to_witness : isLinkTo motorwayRamp motorwayRoad = true :=
  (is_link_to_characterization motorwayRamp motorwayRoad).mpr (by decide)

/-- C7: whenever `in` and `obvious_candidate` are both motorway-class and
`compare_candidate` is a ramp, `obviousByRoadClass` returns true, for every
value of the priority-distinction factor. -/
theorem obvious_motorway_passing_ramp
    (factor : Nat)
    (in_classification obvious_candidate compare_candidate :
      RoadClassification)
    (h1 : in_classification.IsMotorwayClass = true)
    (h2 : obvious_candidate.IsMotorwayClass = true)
    (h3 : compare_candidate.IsRampClass = true) :
    obviousByRoadClass factor in_classification obvious_candidate
      compare_candidate = true := by
  simp [obviousByRoadClass, h1, h2, h3]

/-- Witness for C7: `in` and `obvious_candidate` a motorway (priority 0) and
`compare_candidate` a motorway-link ramp give result true. -/
theorem obvious_motorway_passing_ramp_witness :
    motorwayRoad.IsMotorwayClass = true ∧ motorwayRamp.IsRampClass = true ∧
    obviousByRoadClass 2 motorwayRoad motorwayRoad motorwayRamp = true :=
  ⟨by decide, by decide,
    obvious_motorway_passing_ramp 2 motorwayRoad motorwayRoad motorwayRamp
      (by decide) (by decide) (by decide)⟩

/-- One heap slot satisfies the reuse contract after
`initializeOrClearSlot`. -/
theorem initializeOrClearSlot_resets (number_of_nodes : Nat)
    (slot : Option QueryHeap) :
    slotReset number_of_nodes slot
      (some (initializeOrClearSlot number_of_nodes slot)) := by
  cases slot with
  | none => simp [slotReset, initializeOrClearSlot, QueryHeap.allocate]
  | some h =>
      by_cases hc : h.capacity < number_of_nodes <;>
        simp [slotReset, initializeOrClearSlot, QueryHeap.allocate,
          QueryHeap.clear, hc] <;>
        omega

/-- C8: each of the three `InitializeOrClear<Nth>ThreadLocalStorage` variants
leaves both heaps of its slot pair allocated with no pending and no visited
entries, with capacity `number_of_nodes` when the slot did not exist, the old
capacity when it sufficed, and the grown `number_of_nodes` when the old
capacity was exceeded. -/
theorem initialize_or_clear_thread_local_storage
    (number_of_nodes : Nat) (st : SearchEngineData) :
    slotReset number_of_nodes st.forwardHeap
      ((st.InitializeOrClearFirstThreadLocalStorage
          number_of_nodes).forwardHeap) ∧
    slotReset number_of_nodes st.backwardHeap
      ((st.InitializeOrClearFirstThreadLocalStorage
          number_of_nodes).backwardHeap) ∧
    slotReset number_of_nodes st.forwardHeap2
      ((st.InitializeOrClearSecondThreadLocalStorage
          number_of_nodes).forwardHeap2) ∧
    slotReset number_of_nodes st.backwardHeap2
      ((st.InitializeOrClearSecondThreadLocalStorage
          number_of_nodes).backwardHeap2) ∧
    slotReset number_of_nodes st.forwardHeap3
      ((st.InitializeOrClearThirdThreadLocalStorage
          number_of_nodes).forwardHeap3) ∧
    slotReset number_of_nodes st.backwardHeap3
      ((st.InitializeOrClearThirdThreadLocalStorage
          number_of_nodes).backwardHeap3) :=
  ⟨initializeOrClearSlot_resets number_of_nodes st.forwardHeap,
   initializeOrClearSlot_resets number_of_nodes st.backwardHeap,
   initializeOrClearSlot_resets number_of_nodes st.forwardHeap2,
   initializeOrClearSlot_resets number_of_nodes st.backwardHeap2,
   initializeOrClearSlot_resets number_of_nodes st.forwardHeap3,
   initializeOrClearSlot_resets number_of_nodes st.backwardHeap3⟩

/-- C9: a default-constructed `RoadClassification` has class `CONNECTIVITY`
(priority 31), is neither motorway-class nor link-class, has zero lanes, and
is *not* a low-priority road class, because the `may_be_ignored` flag is
independent of the priority value and not set by the default constructor. -/
theorem default_classification_fields :
    RoadClassification.mkDefault.GetClass = RoadPriorityClass.CONNECTIVITY ∧
    RoadPriorityClass.CONNECTIVITY = 31 ∧
    RoadClassification.mkDefault.IsMotorwayClass = false ∧
    RoadClassification.mkDefault.IsLinkClass = false ∧
    RoadClassification.mkDefault.GetNumberOfLanes = 0 ∧
    RoadClassification.mkDefault.IsLowPriorityRoadClass = false := by
  decide

/-- C10: removing the `!passing_ramp` conjunct from the final return
expression of `obviousByRoadClass` never changes the result, for every
factor: `has_high_priority` already requires `compare_candidate` not to be a
ramp, while `passing_ramp` requires it to be one. -/
theorem obvious_passing_ramp_conjunct_redundant
    (factor : Nat)
    (in_classification obvious_candidate compare_candidate :
      RoadClassification) :
    obviousByRoadClass factor in_classification obvious_candidate
        compare_candidate =
      obviousByRoadClassNoPassingRamp factor in_classification
        obvious_candidate compare_candidate := by
  unfold obviousByRoadClass obviousByRoadClassNoPassingRamp
  cases hr : compare_candidate.IsRampClass <;> simp [hr]

end Osrm
